import Mathlib

/-!
Shallow embedding of the CosmWasm proxy contract
(`contracts/proxy/src/contract.rs` and `contracts/proxy/src/contract/exec.rs`)
and proofs of the specification claims about it.

Machine integers: the contract stores `weight`, `donations`, `halftime`,
`last_updated` as `u64` and computes signed differences in `i64`.  We model
`u64` values as `Nat` and `i64` values as `Int`, with the Rust `as`-casts and
wrapping arithmetic made explicit where they occur in the source.
`Decimal` (cosmwasm fixed-point, 18 decimal places, unsigned) is modelled by
its atomics as a `Nat`; `Uint128 * Decimal` rounds down.
-/

namespace Proxy

/-- `2^63`, the first `u64` value whose `as i64` cast is negative. -/
def I64_HALF : Nat := 9223372036854775808

/-- `2^64`. -/
def U64_MOD : Nat := 18446744073709551616

/-- Rust `u as i64` for a `u64` value `n` (`n < 2^64`): wraps at `2^63`. -/
def i64_of_u64 (n : Nat) : Int :=
  if n < I64_HALF then (n : Int) else (n : Int) - (U64_MOD : Int)

/-- Rust `i as u64` for an `i64` value `i`: value modulo `2^64`. -/
def u64_of_i64 (i : Int) : Nat :=
  (i % (U64_MOD : Int)).toNat

/-- Wrap an unbounded integer into the `i64` range `[-2^63, 2^63)`,
the result of a (release-mode) overflowing `i64` operation. -/
def i64_wrap (i : Int) : Int :=
  (i + (I64_HALF : Int)) % (U64_MOD : Int) - (I64_HALF : Int)

/-- Rust `i64` subtraction (wrapping). -/
def i64_sub (a b : Int) : Int := i64_wrap (a - b)

/-- Rust `i64` addition (wrapping). -/
def i64_add (a b : Int) : Int := i64_wrap (a + b)

/-- Rust `i64` negation (wrapping; overflows only at `i64::MIN`). -/
def i64_neg (a : Int) : Int := i64_wrap (-a)

/-- Rust `u64` subtraction (wrapping), used for `env.block.time.seconds() - last_updated`. -/
def u64_sub (a b : Nat) : Nat := (a + U64_MOD - b % U64_MOD) % U64_MOD

/-- Rust `i64` division truncates toward zero, i.e. `Int.tdiv`. -/
def i64_div (a b : Int) : Int := Int.tdiv a b

/-- Atomics of `Decimal::one()` / `Decimal::percent(100)`: `10^18`. -/
def DECIMAL_FRACTIONAL : Nat := 1000000000000000000

/-- `Uint128 * Decimal` in cosmwasm: exact product of the amount with the
decimal's atomics over `10^18`, rounded down. -/
def mulDecimal (amount : Nat) (atomics : Nat) : Nat :=
  amount * atomics / DECIMAL_FRACTIONAL

/-- A coin: denomination and amount (`Uint128`, modelled as `Nat`). -/
structure Coin where
  denom : String
  amount : Nat
  deriving Repr, DecidableEq

/-- `MessageInfo`: the caller and the funds attached to the request. -/
structure MessageInfo where
  sender : String
  funds : List Coin
  deriving Repr, DecidableEq

/-- The `Config` record stored under `CONFIG`. -/
structure Config where
  denom : String
  direct_part : Nat          -- Decimal atomics
  distribution_contract : String
  membership_contract : String
  is_closed : Bool
  deriving Repr, DecidableEq

/-- The `WithdrawalData` record stored under `PENDING_WITHDRAWAL`. -/
structure WithdrawalData where
  receiver : String
  amount : Option Nat
  deriving Repr, DecidableEq

/-- The whole durable storage of the proxy contract:
`OWNER`, `WEIGHT`, `DONATIONS`, `CONFIG`, `HALFTIME`, `LAST_UPDATED`,
`PENDING_WITHDRAWAL`. -/
structure State where
  owner : String
  weight : Nat               -- u64
  donations : Nat            -- u64
  config : Config
  halftime : Nat             -- u64 seconds
  last_updated : Nat         -- u64 seconds
  pending_withdrawal : Option WithdrawalData
  deriving Repr, DecidableEq

/-- Payload of an outbound `WasmMsg::Execute` (the JSON encoding is out of
scope; we keep the structured message). -/
inductive Payload where
  | distribute : Payload
  | distWithdraw (weight : Nat) (diff : Int) : Payload
  | proposeMember (addr : String) : Payload
  deriving Repr, DecidableEq

/-- An outbound `WasmMsg::Execute`. -/
structure WasmExec where
  contract_addr : String
  payload : Payload
  funds : List Coin
  deriving Repr, DecidableEq

/-- Reply policy of a submessage. -/
inductive ReplyOn where
  | never
  | success
  deriving Repr, DecidableEq

/-- A `SubMsg`: `Response::add_message` wraps the message with `reply_on =
never` and id 0; `SubMsg::reply_on_success` sets the given id. -/
structure SubMsgT where
  id : Nat
  msg : WasmExec
  reply_on : ReplyOn
  deriving Repr, DecidableEq

/-- A `Response`: the submessages and observability attributes. -/
structure Response where
  messages : List SubMsgT
  attributes : List (String × String)
  deriving Repr, DecidableEq

/-- The contract's error type (`ContractError`), plus the payment errors of
`cw_utils::must_pay` and address-validation failure, which the handlers
propagate. -/
inductive ContractError where
  | InalidDirectPart
  | Unauthorized
  | UnrecognizedReplyId (id : Nat)
  | PaymentNoFunds
  | PaymentMultipleDenoms
  | PaymentMissingDenom (denom : String)
  | InvalidAddress (addr : String)
  | MissingPendingState
  | DownstreamFailure
  deriving Repr, DecidableEq

/-- `deps.api.addr_validate`: an abstract address validator, `none` when the
string is not a valid address. -/
def Api := String → Option String

/-- `cw_utils::must_pay(info, denom)`: exactly one attached coin, of the given
denomination, with nonzero amount. -/
def must_pay (info : MessageInfo) (denom : String) : Except ContractError Nat :=
  match info.funds with
  | [] => .error .PaymentNoFunds
  | [c] =>
      if c.amount = 0 then .error .PaymentNoFunds
      else if c.denom = denom then .ok c.amount
      else .error (.PaymentMissingDenom denom)
  | _ => .error .PaymentMultipleDenoms

/-- `WITHDRAW_REPLY_ID` from `contract.rs`. -/
def WITHDRAW_REPLY_ID : Nat := 1

/-- `PROPOSE_MEMBER_REPLY_ID` from `contract.rs`. -/
def PROPOSE_MEMBER_REPLY_ID : Nat := 2

/-- The `InstantiateMsg` fields used by `instantiate`. -/
structure InstantiateMsg where
  owner : String
  denom : String
  direct_part : Nat          -- Decimal atomics
  distribution_contract : String
  membership_contract : String
  weight : Nat
  halftime : Nat
  deriving Repr, DecidableEq

/-- `instantiate` from `contract.rs`: checks `0 ≤ direct_part ≤ 100%`,
validates the three addresses, then saves owner, weight, donations `= 0`,
config with `is_closed = false`, halftime, and `last_updated` to the block
time. -/
def instantiate (api : Api) (now : Nat) (msg : InstantiateMsg) :
    Except ContractError (State × Response) :=
  if 0 ≤ msg.direct_part ∧ msg.direct_part ≤ DECIMAL_FRACTIONAL then
    match api msg.owner with
    | none => .error (.InvalidAddress msg.owner)
    | some owner =>
      match api msg.distribution_contract with
      | none => .error (.InvalidAddress msg.distribution_contract)
      | some distribution_contract =>
        match api msg.membership_contract with
        | none => .error (.InvalidAddress msg.membership_contract)
        | some membership_contract =>
          .ok
            ({ owner := owner
               weight := msg.weight
               donations := 0
               config :=
                 { denom := msg.denom
                   direct_part := msg.direct_part
                   distribution_contract := distribution_contract
                   membership_contract := membership_contract
                   is_closed := false }
               halftime := msg.halftime
               last_updated := now
               pending_withdrawal := none },
             { messages := [], attributes := [] })
  else .error .InalidDirectPart

/-- `exec::donate` from `exec.rs`: validates the payment, computes
`direct_amount = amount * direct_part` (floor) and `to_distribute = amount -
direct_amount`, emits one fire-and-forget `Distribute` call to the
distribution contract carrying `to_distribute`, and increments `DONATIONS`
by 1. -/
def donate (s : State) (info : MessageInfo) :
    Except ContractError (State × Response) :=
  let config := s.config
  match must_pay info config.denom with
  | .error e => .error e
  | .ok amount =>
    let direct_amount := mulDecimal amount config.direct_part
    let to_distribute := amount - direct_amount
    let distribution_msg : SubMsgT :=
      { id := 0
        msg :=
          { contract_addr := config.distribution_contract
            payload := .distribute
            funds := [{ denom := config.denom, amount := to_distribute }] }
        reply_on := .never }
    .ok ({ s with donations := s.donations + 1 },
      { messages := [distribution_msg]
        attributes :=
          [("action", "donate"), ("sender", info.sender),
           ("amount", toString amount)] })

/-- `exec::withdraw` from `exec.rs`: owner-gated; computes
`diff = donations as i64 - weight as i64`; saves `weight := donations`,
`donations := 1`, `last_updated := now`; resolves the receiver (validated
supplied address, else the caller); saves the pending withdrawal; emits one
reply-on-success `Withdraw{weight, diff}` sub-call (with the old weight) to
the distribution contract. -/
def withdraw (api : Api) (s : State) (info : MessageInfo) (now : Nat)
    (receiver : Option String) (amount : Option Nat) :
    Except ContractError (State × Response) :=
  if s.owner = info.sender then
    let weight := s.weight
    let donations := s.donations
    let diff := i64_sub (i64_of_u64 donations) (i64_of_u64 weight)
    -- In the Rust source the saves of weight/donations/last_updated precede
    -- the receiver validation, but an error rolls the whole request back,
    -- so resolving the receiver first computes the same result function.
    let rcv? : Except ContractError String :=
      match receiver with
      | some addr_str =>
          match api addr_str with
          | some a => .ok a
          | none => .error (.InvalidAddress addr_str)
      | none => .ok info.sender
    match rcv? with
    | .error e => .error e
    | .ok rcv =>
      let s' := { s with
        weight := donations
        donations := 1
        last_updated := now
        pending_withdrawal := some { receiver := rcv, amount := amount } }
      let withdraw_msg : SubMsgT :=
        { id := WITHDRAW_REPLY_ID
          msg :=
            { contract_addr := s.config.distribution_contract
              payload := .distWithdraw weight diff
              funds := [] }
          reply_on := .success }
      .ok (s',
        { messages := [withdraw_msg]
          attributes :=
            [("action", "withdraw"), ("sender", info.sender),
             ("new weight", toString weight)] })
  else .error .Unauthorized

/-- `exec::close` from `exec.rs`: owner-gated; unconditionally sets
`is_closed := true`. -/
def close (s : State) (info : MessageInfo) :
    Except ContractError (State × Response) :=
  if s.owner = info.sender then
    .ok ({ s with config := { s.config with is_closed := true } },
      { messages := [], attributes := [("action", "close")] })
  else .error .Unauthorized

/-- `exec::propose_member` from `exec.rs`: owner-gated; emits one
reply-on-success `ProposeMember{addr}` sub-call to the membership contract;
no durable state change. -/
def propose_member (s : State) (info : MessageInfo) (addr : String) :
    Except ContractError (State × Response) :=
  if s.owner = info.sender then
    let propose_msg : SubMsgT :=
      { id := PROPOSE_MEMBER_REPLY_ID
        msg :=
          { contract_addr := s.config.membership_contract
            payload := .proposeMember addr
            funds := [] }
        reply_on := .success }
    .ok (s,
      { messages := [propose_msg]
        attributes :=
          [("action", "propose member"), ("sender", info.sender),
           ("new member", addr)] })
  else .error .Unauthorized

/-- `exec::update_weight` from `exec.rs`: reads `last_updated` and
`halftime`; `elapsed = now - last_updated` (u64); if `halftime > elapsed`,
succeeds with `performed = no` and no state change; otherwise computes
`diff = -(weight as i64) / 2`, emits a fire-and-forget
`Withdraw{weight, diff}` call to the distribution contract, and stores
`(weight as i64 + diff) as u64` as the new weight. -/
def update_weight (s : State) (info : MessageInfo) (now : Nat) :
    Except ContractError (State × Response) :=
  let last_updated := s.last_updated
  let halftime := s.halftime
  let attrs := [("action", "update_weight"), ("sender", info.sender)]
  let elapsed_time := u64_sub now last_updated
  if halftime > elapsed_time then
    .ok (s, { messages := [], attributes := attrs ++ [("performed", "no")] })
  else
    let weight := s.weight
    let diff := i64_div (i64_neg (i64_of_u64 weight)) 2
    let withdraw_msg : SubMsgT :=
      { id := 0
        msg :=
          { contract_addr := s.config.distribution_contract
            payload := .distWithdraw weight diff
            funds := [] }
        reply_on := .never }
    let new_weight := u64_of_i64 (i64_add (i64_of_u64 weight) diff)
    .ok ({ s with weight := new_weight },
      { messages := [withdraw_msg]
        attributes :=
          attrs ++ [("performed", "yes"), ("new weight", toString new_weight)] })

/-- Result of a completed sub-call as seen by the reply entry point. -/
inductive SubMsgResult where
  | ok
  | err (msg : String)
  deriving Repr, DecidableEq

/-- Modelled from the spec: the withdrawal completion continuation
(`reply::withdraw`, not under `src/`).  Per §4.5 it loads
`PendingWithdrawal`, fails with the missing-pending-state error when absent,
transfers the staged amount to the staged receiver and deletes the record.
The transfer is represented as an attribute; the exact amount resolution is
left open by the spec (§9) and is irrelevant to the claims proved here. -/
def reply_withdraw (s : State) : Except ContractError (State × Response) :=
  match s.pending_withdrawal with
  | none => .error .MissingPendingState
  | some wd =>
      .ok ({ s with pending_withdrawal := none },
        { messages := []
          attributes := [("action", "withdraw reply"), ("receiver", wd.receiver)] })

/-- Modelled from the spec: the membership-proposal completion continuation
(`reply::propose_member`, not under `src/`).  Per §4.7 it only inspects the
downstream result, propagating failure, and mutates no state. -/
def reply_propose_member (s : State) (result : SubMsgResult) :
    Except ContractError (State × Response) :=
  match result with
  | .ok => .ok (s, { messages := [], attributes := [] })
  | .err _ => .error .DownstreamFailure

/-- `reply` from `contract.rs`: routes id 1 to the withdrawal continuation,
id 2 to the proposal continuation, and fails with `UnrecognizedReplyId(id)`
on any other id. -/
def reply (s : State) (id : Nat) (result : SubMsgResult) :
    Except ContractError (State × Response) :=
  if id = WITHDRAW_REPLY_ID then reply_withdraw s
  else if id = PROPOSE_MEMBER_REPLY_ID then reply_propose_member s result
  else .error (.UnrecognizedReplyId id)

/-- One successful state-mutating invocation of the contract: any of the five
execute handlers or the reply entry point, succeeding and producing the new
state. -/
inductive Step : State → State → Prop where
  | donate (info : MessageInfo) (s s' : State) (r : Response) :
      donate s info = .ok (s', r) → Step s s'
  | withdraw (api : Api) (info : MessageInfo) (now : Nat)
      (receiver : Option String) (amount : Option Nat) (s s' : State)
      (r : Response) :
      withdraw api s info now receiver amount = .ok (s', r) → Step s s'
  | close (info : MessageInfo) (s s' : State) (r : Response) :
      close s info = .ok (s', r) → Step s s'
  | propose_member (info : MessageInfo) (addr : String) (s s' : State)
      (r : Response) :
      propose_member s info addr = .ok (s', r) → Step s s'
  | update_weight (info : MessageInfo) (now : Nat) (s s' : State)
      (r : Response) :
      update_weight s info now = .ok (s', r) → Step s s'
  | reply (id : Nat) (result : SubMsgResult) (s s' : State) (r : Response) :
      reply s id result = .ok (s', r) → Step s s'

/-- Zero or more successful invocations. -/
def Reachable : State → State → Prop := Relation.ReflTransGen Step

/-- A model address validator that accepts every address verbatim,
used in concrete examples. -/
def apiAll : Api := fun a => some a

/-- Concrete configuration for examples: `direct_part = 0.3`
(atomics `3·10^17`). -/
def exCfg : Config :=
  { denom := "uatom"
    direct_part := 300000000000000000
    distribution_contract := "dist"
    membership_contract := "memb"
    is_closed := false }

/-- Concrete state for examples: owner `"alice"`, weight 5, donations 8. -/
def exState : State :=
  { owner := "alice"
    weight := 5
    donations := 8
    config := exCfg
    halftime := 100
    last_updated := 1000
    pending_withdrawal := none }

/-- The example state with the closed flag set. -/
def exStateClosed : State :=
  { exState with config := { exCfg with is_closed := true } }

/-- A concrete instantiation message with `direct_part = 2` (atomics
`2·10^18`), i.e. a fraction outside `[0, 1]`. -/
def exBadMsg : InstantiateMsg :=
  { owner := "alice"
    denom := "uatom"
    direct_part := 2000000000000000000
    distribution_contract := "dist"
    membership_contract := "memb"
    weight := 0
    halftime := 100 }

/-!  ### Arithmetic helper lemmas  -/

lemma i64_wrap_eq (i : Int) (h1 : -(I64_HALF : Int) ≤ i)
    (h2 : i < (I64_HALF : Int)) : i64_wrap i = i := by
  unfold i64_wrap I64_HALF U64_MOD at *
  omega

lemma i64_of_u64_small (n : Nat) (h : n < I64_HALF) :
    i64_of_u64 n = (n : Int) := by
  unfold i64_of_u64
  rw [if_pos h]

lemma tdiv_two_nat (w : Nat) : (w : Int).tdiv 2 = ((w / 2 : Nat) : Int) := rfl

lemma i64_sub_small (d w : Nat) (hd : d < I64_HALF) (hw : w < I64_HALF) :
    i64_sub (i64_of_u64 d) (i64_of_u64 w) = (d : Int) - (w : Int) := by
  rw [i64_of_u64_small d hd, i64_of_u64_small w hw]
  exact i64_wrap_eq _ (by unfold I64_HALF at *; omega)
    (by unfold I64_HALF at *; omega)

lemma halving_diff_eq (w : Nat) (h : w < I64_HALF) :
    i64_div (i64_neg (i64_of_u64 w)) 2 = -((w / 2 : Nat) : Int) := by
  rw [i64_of_u64_small w h]
  rw [show i64_neg (w : Int) = -(w : Int) from
    i64_wrap_eq _ (by unfold I64_HALF at *; omega)
      (by unfold I64_HALF at *; omega)]
  unfold i64_div
  rw [Int.neg_tdiv, tdiv_two_nat]

lemma halving_new_weight_eq (w : Nat) (h : w < I64_HALF) :
    u64_of_i64 (i64_add (i64_of_u64 w) (i64_div (i64_neg (i64_of_u64 w)) 2)) =
      w - w / 2 := by
  rw [halving_diff_eq w h, i64_of_u64_small w h]
  unfold i64_add u64_of_i64
  rw [i64_wrap_eq _ (by unfold I64_HALF at *; omega)
    (by unfold I64_HALF at *; omega)]
  unfold U64_MOD I64_HALF at *
  omega

lemma u64_sub_of_le (now last : Nat) (hle : last ≤ now) (hn : now < U64_MOD) :
    u64_sub now last = now - last := by
  unfold u64_sub U64_MOD at *
  omega

/-!  ### Inversion lemmas: what a successful handler does to the config  -/

lemma donate_ok_config {s s' : State} {info : MessageInfo} {r : Response}
    (h : donate s info = .ok (s', r)) : s'.config = s.config := by
  simp only [donate] at h
  split at h
  · exact absurd h (by simp)
  · simp only [Except.ok.injEq, Prod.mk.injEq] at h
    rw [← h.1]

lemma withdraw_ok_config {api : Api} {s s' : State} {info : MessageInfo}
    {now : Nat} {receiver : Option String} {amount : Option Nat} {r : Response}
    (h : withdraw api s info now receiver amount = .ok (s', r)) :
    s'.config = s.config := by
  simp only [withdraw] at h
  split at h
  · split at h
    · exact absurd h (by simp)
    · simp only [Except.ok.injEq, Prod.mk.injEq] at h
      rw [← h.1]
  · exact absurd h (by simp)

lemma close_ok_inv {s s' : State} {info : MessageInfo} {r : Response}
    (h : close s info = .ok (s', r)) :
    s' = { s with config := { s.config with is_closed := true } } := by
  simp only [close] at h
  split at h
  · simp only [Except.ok.injEq, Prod.mk.injEq] at h
    rw [← h.1]
  · exact absurd h (by simp)

lemma propose_member_ok_state {s s' : State} {info : MessageInfo}
    {addr : String} {r : Response}
    (h : propose_member s info addr = .ok (s', r)) : s' = s := by
  simp only [propose_member] at h
  split at h
  · simp only [Except.ok.injEq, Prod.mk.injEq] at h
    rw [← h.1]
  · exact absurd h (by simp)

lemma update_weight_ok_config {s s' : State} {info : MessageInfo} {now : Nat}
    {r : Response} (h : update_weight s info now = .ok (s', r)) :
    s'.config = s.config := by
  simp only [update_weight] at h
  split at h
  · simp only [Except.ok.injEq, Prod.mk.injEq] at h
    rw [← h.1]
  · simp only [Except.ok.injEq, Prod.mk.injEq] at h
    rw [← h.1]

lemma reply_ok_config {s s' : State} {id : Nat} {result : SubMsgResult}
    {r : Response} (h : reply s id result = .ok (s', r)) :
    s'.config = s.config := by
  simp only [reply, reply_withdraw, reply_propose_member] at h
  split at h
  · split at h
    · exact absurd h (by simp)
    · simp only [Except.ok.injEq, Prod.mk.injEq] at h
      rw [← h.1]
  · split at h
    · split at h
      · simp only [Except.ok.injEq, Prod.mk.injEq] at h
        rw [← h.1]
      · exact absurd h (by simp)
    · exact absurd h (by simp)

/-- A successful step never changes `direct_part` and never clears the
closed flag. -/
lemma step_config_inv {s s' : State} (h : Step s s') :
    s'.config.direct_part = s.config.direct_part ∧
    (s.config.is_closed = true → s'.config.is_closed = true) := by
  cases h with
  | donate info s s' r h =>
      rw [donate_ok_config h]
      exact ⟨rfl, fun hc => hc⟩
  | withdraw api info now receiver amount s s' r h =>
      rw [withdraw_ok_config h]
      exact ⟨rfl, fun hc => hc⟩
  | close info s s' r h =>
      rw [close_ok_inv h]
      exact ⟨rfl, fun _ => rfl⟩
  | propose_member info addr s s' r h =>
      rw [propose_member_ok_state h]
      exact ⟨rfl, fun hc => hc⟩
  | update_weight info now s s' r h =>
      rw [update_weight_ok_config h]
      exact ⟨rfl, fun hc => hc⟩
  | reply id result s s' r h =>
      rw [reply_ok_config h]
      exact ⟨rfl, fun hc => hc⟩

lemma reachable_config_inv {s t : State} (h : Reachable s t) :
    t.config.direct_part = s.config.direct_part ∧
    (s.config.is_closed = true → t.config.is_closed = true) := by
  induction h with
  | refl => exact ⟨rfl, fun hc => hc⟩
  | tail hab hbc ih =>
      obtain ⟨ih1, ih2⟩ := ih
      obtain ⟨h1, h2⟩ := step_config_inv hbc
      exact ⟨h1.trans ih1, fun hc => h2 (ih2 hc)⟩

lemma instantiate_ok_inv {api : Api} {now : Nat} {msg : InstantiateMsg}
    {s : State} {r : Response} (h : instantiate api now msg = .ok (s, r)) :
    s.config.direct_part = msg.direct_part ∧
    msg.direct_part ≤ DECIMAL_FRACTIONAL ∧
    s.config.is_closed = false := by
  simp only [instantiate] at h
  split at h
  case isTrue hcond =>
    split at h
    · exact absurd h (by simp)
    · split at h
      · exact absurd h (by simp)
      · split at h
        · exact absurd h (by simp)
        · simp only [Except.ok.injEq, Prod.mk.injEq] at h
          rw [← h.1]
          exact ⟨rfl, hcond.2, rfl⟩
  case isFalse => exact absurd h (by simp)

/-- A valid single-coin payment in the configured denomination makes
`donate` succeed: one `Distribute` message carrying `amount - ⌊amount ·
direct_part⌋` of the denomination, and the donation counter goes up by 1.
Shared by the donation claims. -/
lemma donate_ok_aux (s : State) (info : MessageInfo) (a : Nat)
    (hfunds : info.funds = [{ denom := s.config.denom, amount := a }])
    (ha : a ≠ 0) :
    donate s info =
      .ok ({ s with donations := s.donations + 1 },
        { messages :=
            [{ id := 0
               msg :=
                 { contract_addr := s.config.distribution_contract
                   payload := .distribute
                   funds :=
                     [{ denom := s.config.denom
                        amount := a - mulDecimal a s.config.direct_part }] }
               reply_on := .never }]
          attributes :=
            [("action", "donate"), ("sender", info.sender),
             ("amount", toString a)] }) := by
  unfold donate must_pay
  simp only [hfunds]
  rw [if_neg ha]
  simp

/-!  ### Claim theorems  -/

/-- C1: for every state with `weight = w` and `donations = d` (within the
`i64` range), a `Withdraw` request whose sender is the stored owner succeeds
and stores `weight = d`, `donations = 1`, `last_updated =` the request's
block time, stores a `PendingWithdrawal` whose receiver is the validated
supplied receiver or, when none is supplied, the caller, and emits exactly
one reply-on-success sub-call to the distribution contract carrying
`Withdraw{weight = w, diff = d - w}` with `diff` a signed integer (possibly
negative). -/
theorem withdraw_owner_spec (api : Api) (s : State) (info : MessageInfo)
    (now : Nat) (receiver : Option String) (amount : Option Nat)
    (rcv : String)
    (hown : s.owner = info.sender)
    (hd : s.donations < I64_HALF) (hw : s.weight < I64_HALF)
    (hrcv : match receiver with
            | some a => api a = some rcv
            | none => rcv = info.sender) :
    withdraw api s info now receiver amount =
      .ok
        ({ s with
            weight := s.donations
            donations := 1
            last_updated := now
            pending_withdrawal := some { receiver := rcv, amount := amount } },
         { messages :=
             [{ id := WITHDRAW_REPLY_ID
                msg :=
                  { contract_addr := s.config.distribution_contract
                    payload := .distWithdraw s.weight
                        ((s.donations : Int) - (s.weight : Int))
                    funds := [] }
                reply_on := .success }]
           attributes :=
             [("action", "withdraw"), ("sender", info.sender),
              ("new weight", toString s.weight)] }) := by
  unfold withdraw
  rw [if_pos hown]
  simp only [i64_sub_small s.donations s.weight hd hw]
  cases receiver with
  | none =>
      simp only at hrcv
      subst hrcv
      rfl
  | some a =>
      simp only at hrcv
      simp only [hrcv]

/-- Witness for C1: the §8 example — owner `"alice"`, weight 5, donations 8,
no explicit receiver — yields weight 8, donations 1, a staged pending
withdrawal to `"alice"` and one reply-on-success sub-call carrying
`Withdraw{weight = 5, diff = 3}`. -/
theorem withdraw_owner_spec_witness :
    withdraw apiAll exState { sender := "alice", funds := [] } 2000 none none =
      .ok
        ({ exState with
            weight := 8
            donations := 1
            last_updated := 2000
            pending_withdrawal := some { receiver := "alice", amount := none } },
         { messages :=
             [{ id := WITHDRAW_REPLY_ID
                msg :=
                  { contract_addr := "dist"
                    payload := .distWithdraw 5 3
                    funds := [] }
                reply_on := .success }]
           attributes :=
             [("action", "withdraw"), ("sender", "alice"),
              ("new weight", "5")] }) :=
  withdraw_owner_spec apiAll exState { sender := "alice", funds := [] }
    2000 none none "alice" rfl (by decide) (by decide) rfl

/-- C2: for every state, an `UpdateWeight` request with
`elapsed = now - last_updated`: if `halftime > elapsed` it succeeds, reports
`performed = "no"` and changes no stored state; otherwise it succeeds,
reports `performed = "yes"`, computes `diff = -⌊weight/2⌋`, emits one
sub-call to the distribution contract carrying `Withdraw{weight, diff}` with
no reply registered, and immediately stores `weight + diff` (that is,
`weight - ⌊weight/2⌋`) as the new weight. -/
theorem update_weight_spec :
    (∀ (s : State) (info : MessageInfo) (now : Nat),
       s.last_updated ≤ now → now < U64_MOD →
       s.halftime > now - s.last_updated →
       update_weight s info now =
         .ok (s,
           { messages := []
             attributes :=
               [("action", "update_weight"), ("sender", info.sender),
                ("performed", "no")] })) ∧
    (∀ (s : State) (info : MessageInfo) (now : Nat),
       s.last_updated ≤ now → now < U64_MOD →
       ¬ s.halftime > now - s.last_updated →
       s.weight < I64_HALF →
       update_weight s info now =
         .ok ({ s with weight := s.weight - s.weight / 2 },
           { messages :=
               [{ id := 0
                  msg :=
                    { contract_addr := s.config.distribution_contract
                      payload := .distWithdraw s.weight
                          (-((s.weight / 2 : Nat) : Int))
                      funds := [] }
                  reply_on := .never }]
             attributes :=
               [("action", "update_weight"), ("sender", info.sender),
                ("performed", "yes"),
                ("new weight", toString (s.weight - s.weight / 2))] })) := by
  constructor
  · intro s info now hle hn hgate
    unfold update_weight
    simp only [u64_sub_of_le now s.last_updated hle hn]
    rw [if_pos hgate]
    rfl
  · intro s info now hle hn hgate hw
    unfold update_weight
    simp only [u64_sub_of_le now s.last_updated hle hn]
    rw [if_neg hgate]
    simp only [halving_new_weight_eq s.weight hw]
    simp only [halving_diff_eq s.weight hw]
    rfl

/-- Witness for C2: on the concrete state (halftime 100, last updated 1000),
a request at time 1050 reports `performed = no` and leaves the state alone;
on the same state with weight 10, a request at time 1200 stores weight 5 and
sends `diff = -5`. -/
theorem update_weight_spec_witness :
    (update_weight exState { sender := "bob", funds := [] } 1050 =
      .ok (exState,
        { messages := []
          attributes :=
            [("action", "update_weight"), ("sender", "bob"),
             ("performed", "no")] })) ∧
    (update_weight { exState with weight := 10 }
        { sender := "bob", funds := [] } 1200 =
      .ok ({ exState with weight := 5 },
        { messages :=
            [{ id := 0
               msg :=
                 { contract_addr := "dist"
                   payload := .distWithdraw 10 (-5)
                   funds := [] }
               reply_on := .never }]
          attributes :=
            [("action", "update_weight"), ("sender", "bob"),
             ("performed", "yes"), ("new weight", "5")] })) :=
  ⟨update_weight_spec.1 exState { sender := "bob", funds := [] } 1050
      (by decide) (by decide) (by decide),
   update_weight_spec.2 { exState with weight := 10 }
      { sender := "bob", funds := [] } 1200
      (by decide) (by decide) (by decide) (by decide)⟩

/-- C10: for every stored weight `w < 2^63`, a performed `UpdateWeight`
stores the new weight `w - ⌊w/2⌋ = ⌈w/2⌉`: the retained half rounds up for
odd `w`, the result is non-negative (it is an exact natural number, so the
signed-to-unsigned conversions in the computation do not wrap under that
bound on `w`). -/
theorem update_weight_halving (s : State) (info : MessageInfo) (now : Nat)
    (hle : s.last_updated ≤ now) (hn : now < U64_MOD)
    (hgate : ¬ s.halftime > now - s.last_updated)
    (hw : s.weight < I64_HALF) :
    ∃ r : Response,
      update_weight s info now =
        .ok ({ s with weight := s.weight - s.weight / 2 }, r) ∧
      s.weight - s.weight / 2 = (s.weight + 1) / 2 := by
  refine
    ⟨{ messages :=
         [{ id := 0
            msg :=
              { contract_addr := s.config.distribution_contract
                payload := .distWithdraw s.weight (-((s.weight / 2 : Nat) : Int))
                funds := [] }
            reply_on := .never }]
       attributes :=
         [("action", "update_weight"), ("sender", info.sender),
          ("performed", "yes"),
          ("new weight", toString (s.weight - s.weight / 2))] }, ?_, ?_⟩
  · unfold update_weight
    simp only [u64_sub_of_le now s.last_updated hle hn]
    rw [if_neg hgate]
    simp only [halving_new_weight_eq s.weight hw]
    simp only [halving_diff_eq s.weight hw]
    rfl
  · omega

/-- C3: for every valid payment of amount `a` in the configured
denomination, `Donate` succeeds, computes `direct_amount = a × direct_part`
rounded down, emits exactly one outbound `Distribute` call to the
distribution contract carrying funds of `a - direct_amount` in that
denomination, and increments the stored donation counter by exactly 1
regardless of `a`. -/
theorem donate_spec (s : State) (info : MessageInfo) (a : Nat)
    (hfunds : info.funds = [{ denom := s.config.denom, amount := a }])
    (ha : a ≠ 0) :
    donate s info =
      .ok ({ s with donations := s.donations + 1 },
        { messages :=
            [{ id := 0
               msg :=
                 { contract_addr := s.config.distribution_contract
                   payload := .distribute
                   funds :=
                     [{ denom := s.config.denom
                        amount := a - mulDecimal a s.config.direct_part }] }
               reply_on := .never }]
          attributes :=
            [("action", "donate"), ("sender", info.sender),
             ("amount", toString a)] }) :=
  donate_ok_aux s info a hfunds ha

/-- Witness for C3: two successive donations of 1000 `uatom` at
`direct_part = 0.3` each send exactly 700 to the distribution contract and
raise the counter from 0 to 1 and then from 1 to 2. -/
theorem donate_spec_witness :
    (donate { exState with donations := 0 }
        { sender := "carol", funds := [{ denom := "uatom", amount := 1000 }] } =
      .ok ({ exState with donations := 1 },
        { messages :=
            [{ id := 0
               msg :=
                 { contract_addr := "dist"
                   payload := .distribute
                   funds := [{ denom := "uatom", amount := 700 }] }
               reply_on := .never }]
          attributes :=
            [("action", "donate"), ("sender", "carol"),
             ("amount", "1000")] })) ∧
    (donate { exState with donations := 1 }
        { sender := "carol", funds := [{ denom := "uatom", amount := 1000 }] } =
      .ok ({ exState with donations := 2 },
        { messages :=
            [{ id := 0
               msg :=
                 { contract_addr := "dist"
                   payload := .distribute
                   funds := [{ denom := "uatom", amount := 700 }] }
               reply_on := .never }]
          attributes :=
            [("action", "donate"), ("sender", "carol"),
             ("amount", "1000")] })) :=
  ⟨donate_spec { exState with donations := 0 }
      { sender := "carol", funds := [{ denom := "uatom", amount := 1000 }] }
      1000 rfl (by decide),
   donate_spec { exState with donations := 1 }
      { sender := "carol", funds := [{ denom := "uatom", amount := 1000 }] }
      1000 rfl (by decide)⟩

/-- C4: for every state and every caller different from the stored owner,
each of `Withdraw`, `Close` and `ProposeMember` fails with the
`Unauthorized` error.  In this embedding an `.error` result is the whole
request aborting: no stored state changes and no outbound message is
emitted. -/
theorem unauthorized_spec :
    (∀ (api : Api) (s : State) (info : MessageInfo) (now : Nat)
       (receiver : Option String) (amount : Option Nat),
       s.owner ≠ info.sender →
       withdraw api s info now receiver amount = .error .Unauthorized) ∧
    (∀ (s : State) (info : MessageInfo),
       s.owner ≠ info.sender → close s info = .error .Unauthorized) ∧
    (∀ (s : State) (info : MessageInfo) (addr : String),
       s.owner ≠ info.sender →
       propose_member s info addr = .error .Unauthorized) := by
  refine ⟨?_, ?_, ?_⟩
  · intro api s info now receiver amount h
    unfold withdraw
    rw [if_neg h]
  · intro s info h
    unfold close
    rw [if_neg h]
  · intro s info addr h
    unfold propose_member
    rw [if_neg h]

/-- Witness for C4: the caller `"mallory"` is rejected with `Unauthorized`
on all three owner-gated operations of the example state. -/
theorem unauthorized_spec_witness :
    (withdraw apiAll exState { sender := "mallory", funds := [] } 2000
        none none = .error .Unauthorized) ∧
    (close exState { sender := "mallory", funds := [] } =
      .error .Unauthorized) ∧
    (propose_member exState { sender := "mallory", funds := [] } "bob" =
      .error .Unauthorized) :=
  ⟨unauthorized_spec.1 apiAll exState { sender := "mallory", funds := [] }
      2000 none none (by decide),
   unauthorized_spec.2.1 exState { sender := "mallory", funds := [] }
      (by decide),
   unauthorized_spec.2.2 exState { sender := "mallory", funds := [] } "bob"
      (by decide)⟩

/-- C5 counterexample: on a state whose closed flag is true, a `Donate`
request with a valid payment does NOT fail: it succeeds, emits the
distribute call and increments the donation counter — the code of `donate`
never consults `is_closed`. -/
theorem donate_closed_counterexample :
    exStateClosed.config.is_closed = true ∧
    donate exStateClosed
        { sender := "carol", funds := [{ denom := "uatom", amount := 1000 }] } =
      .ok ({ exStateClosed with donations := 9 },
        { messages :=
            [{ id := 0
               msg :=
                 { contract_addr := "dist"
                   payload := .distribute
                   funds := [{ denom := "uatom", amount := 700 }] }
               reply_on := .never }]
          attributes :=
            [("action", "donate"), ("sender", "carol"),
             ("amount", "1000")] }) := by
  exact ⟨rfl, rfl⟩

/-- C5 amended: for every state whose closed flag is true, `Donate` ignores
the flag: with a valid payment it still succeeds, emits the distribute call
and increments the donation counter exactly as when the proxy is open. -/
theorem donate_closed_amended (s : State) (info : MessageInfo) (a : Nat)
    (_hclosed : s.config.is_closed = true)
    (hfunds : info.funds = [{ denom := s.config.denom, amount := a }])
    (ha : a ≠ 0) :
    donate s info =
      .ok ({ s with donations := s.donations + 1 },
        { messages :=
            [{ id := 0
               msg :=
                 { contract_addr := s.config.distribution_contract
                   payload := .distribute
                   funds :=
                     [{ denom := s.config.denom
                        amount := a - mulDecimal a s.config.direct_part }] }
               reply_on := .never }]
          attributes :=
            [("action", "donate"), ("sender", info.sender),
             ("amount", toString a)] }) :=
  donate_ok_aux s info a hfunds ha

/-- Witness for C5 (amended): a donation of 500 `uatom` on the closed
example state succeeds, sends 350, and raises the counter to 9. -/
theorem donate_closed_amended_witness :
    donate exStateClosed
        { sender := "dave", funds := [{ denom := "uatom", amount := 500 }] } =
      .ok ({ exStateClosed with donations := 9 },
        { messages :=
            [{ id := 0
               msg :=
                 { contract_addr := "dist"
                   payload := .distribute
                   funds := [{ denom := "uatom", amount := 350 }] }
               reply_on := .never }]
          attributes :=
            [("action", "donate"), ("sender", "dave"),
             ("amount", "500")] }) :=
  donate_closed_amended exStateClosed
    { sender := "dave", funds := [{ denom := "uatom", amount := 500 }] }
    500 rfl rfl (by decide)

/-- C6: a second owner-initiated `Withdraw` while a `PendingWithdrawal` is
already staged succeeds and overwrites the single pending slot with the new
receiver and amount; no guard rejects it, and the result does not depend on
the previously staged record at all. -/
theorem withdraw_overwrite_pending :
    (∀ (api : Api) (s : State) (info : MessageInfo) (now : Nat)
       (receiver : Option String) (amount : Option Nat) (rcv : String)
       (old : WithdrawalData),
       s.pending_withdrawal = some old →
       s.owner = info.sender →
       (match receiver with
        | some a => api a = some rcv
        | none => rcv = info.sender) →
       ∃ s' r, withdraw api s info now receiver amount = .ok (s', r) ∧
         s'.pending_withdrawal =
           some { receiver := rcv, amount := amount }) ∧
    (∀ (api : Api) (s : State) (info : MessageInfo) (now : Nat)
       (receiver : Option String) (amount : Option Nat)
       (p₁ p₂ : Option WithdrawalData),
       withdraw api { s with pending_withdrawal := p₁ }
           info now receiver amount =
         withdraw api { s with pending_withdrawal := p₂ }
           info now receiver amount) := by
  constructor
  · intro api s info now receiver amount rcv old hpend hown hrcv
    unfold withdraw
    rw [if_pos hown]
    cases receiver with
    | none =>
        simp only at hrcv
        subst hrcv
        exact ⟨_, _, rfl, rfl⟩
    | some a =>
        simp only at hrcv
        simp only [hrcv]
        exact ⟨_, _, rfl, rfl⟩
  · intro api s info now receiver amount p₁ p₂
    rfl

/-- Witness for C6: with a withdrawal to `"dave"` already staged, a second
withdrawal addressed to `"erin"` succeeds and the slot now holds `"erin"`'s
record. -/
theorem withdraw_overwrite_pending_witness :
    ∃ s' r,
      withdraw apiAll
          { exState with
              pending_withdrawal :=
                some { receiver := "dave", amount := some 7 } }
          { sender := "alice", funds := [] } 2000 (some "erin") (some 11) =
        .ok (s', r) ∧
      s'.pending_withdrawal = some { receiver := "erin", amount := some 11 } :=
  withdraw_overwrite_pending.1 apiAll
    { exState with
        pending_withdrawal := some { receiver := "dave", amount := some 7 } }
    { sender := "alice", funds := [] } 2000 (some "erin") (some 11) "erin"
    { receiver := "dave", amount := some 7 } rfl rfl rfl

/-- C7: the closed flag is monotone one-way: instantiation stores
`closed = false`; `Close` called by the owner unconditionally stores
`closed = true` and succeeds even when the flag is already true (no
`AlreadyClosed` error); no successful operation ever stores `closed = false`
again; hence in every state reachable after a successful `Close`,
`closed = true`. -/
theorem closed_flag_monotone :
    (∀ (api : Api) (now : Nat) (msg : InstantiateMsg) (s : State)
       (r : Response),
       instantiate api now msg = .ok (s, r) → s.config.is_closed = false) ∧
    (∀ (s : State) (info : MessageInfo), s.owner = info.sender →
       close s info =
         .ok ({ s with config := { s.config with is_closed := true } },
           { messages := [], attributes := [("action", "close")] })) ∧
    (∀ (s s' : State), s.config.is_closed = true → Step s s' →
       s'.config.is_closed = true) ∧
    (∀ (s s' : State) (info : MessageInfo) (r : Response),
       s.owner = info.sender → close s info = .ok (s', r) →
       ∀ t, Reachable s' t → t.config.is_closed = true) := by
  refine ⟨?_, ?_, ?_, ?_⟩
  · intro api now msg s r h
    exact (instantiate_ok_inv h).2.2
  · intro s info hown
    unfold close
    rw [if_pos hown]
  · intro s s' hc hstep
    exact (step_config_inv hstep).2 hc
  · intro s s' info r _hown hclose t hreach
    have hc : s'.config.is_closed = true := by
      rw [close_ok_inv hclose]
    exact (reachable_config_inv hreach).2 hc

/-- Witness for C7: closing the example state (already-true flag allowed:
the input flag value is unconstrained) yields the closed state, and every
state reachable from it — here by the empty sequence of steps — still has
`closed = true`. -/
theorem closed_flag_monotone_witness :
    exStateClosed.config.is_closed = true :=
  closed_flag_monotone.2.2.2 exState exStateClosed
    { sender := "alice", funds := [] }
    { messages := [], attributes := [("action", "close")] } rfl rfl
    exStateClosed Relation.ReflTransGen.refl

/-- C8: for every reply whose identifier is neither the withdraw
continuation id (1) nor the propose-member continuation id (2), the reply
entry point fails with `UnrecognizedReplyId` carrying that identifier;
exactly these two identifiers are routed to the two continuations. -/
theorem reply_routing :
    (∀ (s : State) (id : Nat) (result : SubMsgResult),
       id ≠ WITHDRAW_REPLY_ID → id ≠ PROPOSE_MEMBER_REPLY_ID →
       reply s id result = .error (.UnrecognizedReplyId id)) ∧
    (∀ (s : State) (result : SubMsgResult),
       reply s WITHDRAW_REPLY_ID result = reply_withdraw s) ∧
    (∀ (s : State) (result : SubMsgResult),
       reply s PROPOSE_MEMBER_REPLY_ID result =
         reply_propose_member s result) := by
  refine ⟨?_, ?_, ?_⟩
  · intro s id result h1 h2
    unfold reply
    rw [if_neg h1, if_neg h2]
  · intro s result
    unfold reply
    rw [if_pos rfl]
  · intro s result
    unfold reply
    rw [if_neg (by decide), if_pos rfl]

/-- Witness for C8: a reply with the unknown id 7 fails with
`UnrecognizedReplyId 7`. -/
theorem reply_routing_witness :
    reply exState 7 .ok = .error (.UnrecognizedReplyId 7) :=
  reply_routing.1 exState 7 .ok (by decide) (by decide)

/-- C9: instantiation with a direct-share fraction outside `[0, 1]` fails
with the invalid-configuration error (the `Decimal` type is unsigned, so
"outside `[0, 1]`" means `> 1`); with a fraction inside `[0, 1]` (and valid
addresses) instantiation succeeds and stores that fraction; and in every
state reachable from a successful instantiation the stored fraction is
inside `[0, 1]` — so no reachable configuration lets `Donate` run with a
fraction outside `[0, 1]`. -/
theorem direct_part_validation :
    (∀ (api : Api) (now : Nat) (msg : InstantiateMsg),
       DECIMAL_FRACTIONAL < msg.direct_part →
       instantiate api now msg = .error .InalidDirectPart) ∧
    (∀ (api : Api) (now : Nat) (msg : InstantiateMsg) (o d m : String),
       msg.direct_part ≤ DECIMAL_FRACTIONAL →
       api msg.owner = some o →
       api msg.distribution_contract = some d →
       api msg.membership_contract = some m →
       ∃ s r, instantiate api now msg = .ok (s, r) ∧
         s.config.direct_part = msg.direct_part) ∧
    (∀ (api : Api) (now : Nat) (msg : InstantiateMsg) (s : State)
       (r : Response),
       instantiate api now msg = .ok (s, r) →
       ∀ t, Reachable s t → t.config.direct_part ≤ DECIMAL_FRACTIONAL) := by
  refine ⟨?_, ?_, ?_⟩
  · intro api now msg h
    unfold instantiate
    rw [if_neg (fun hc => absurd hc.2 (not_le.mpr h))]
  · intro api now msg o d m h ho hd hm
    unfold instantiate
    rw [if_pos ⟨Nat.zero_le _, h⟩]
    rw [ho, hd, hm]
    exact ⟨_, _, rfl, rfl⟩
  · intro api now msg s r h t hreach
    obtain ⟨h1, h2, _⟩ := instantiate_ok_inv h
    rw [(reachable_config_inv hreach).1, h1]
    exact h2

/-- Witness for C9: instantiation with fraction 2 (atomics `2·10^18`) fails
with the invalid-configuration error. -/
theorem direct_part_validation_witness :
    instantiate apiAll 1000 exBadMsg = .error .InalidDirectPart :=
  direct_part_validation.1 apiAll 1000 exBadMsg (by decide)

/-- Witness for C10: with weight 11 and the window elapsed, the stored new
weight is `6 = ⌈11/2⌉` (rounding up, not 5). -/
theorem update_weight_halving_witness :
    ∃ r : Response,
      update_weight { exState with weight := 11 }
          { sender := "bob", funds := [] } 1200 =
        .ok ({ exState with weight := 6 }, r) ∧ (11 : Nat) - 11 / 2 = 6 := by
  obtain ⟨r, hr, h⟩ := update_weight_halving { exState with weight := 11 }
    { sender := "bob", funds := [] } 1200 (by decide) (by decide)
    (by decide) (by decide)
  exact ⟨r, hr, by decide⟩

end Proxy
